import Mathlib

/-!
Verification of the engineering-manager-mcp daily-standup report engine.

This file gives a shallow embedding, in Lean 4, of the Jira tool handler of
the repository (src/jira-handler.ts together with its utilities
src/utils/cache.ts, src/utils/errors.ts, src/utils/validation.ts), and proves
the specified properties of that code.

Modelling conventions:
* JavaScript numbers that hold integral millisecond timestamps or day counts
  are modelled as `Int`; counters and sizes as `Nat`.
* JavaScript `Date` parsing (`new Date(s).getTime()`) is treated as an
  external primitive: the environment carries `parseDate : String → Int`
  and the current instant `now : Int` (milliseconds).
* The JavaScript truthiness idiom `x || d` on strings (empty string is
  falsy) is modelled by `strOr`; `x || null` on strings by `optStrOrNull`.
* Fallible upstream HTTP calls are modelled as `Except AppError` valued
  oracles carried by the environment; the response interceptor of the axios
  clients converts failures to `ApiError`, hence the error type.
* `Array.prototype.sort(cmp)` with a consistent comparator is modelled as
  `List.insertionSort` over the order induced by the comparator (a stable
  sort producing an output sorted for that order, as the ECMAScript sort
  does).
-/

namespace EngMcp

/-! ## Small string helpers (JavaScript idioms) -/

/-- Checks that `p` is a leading run of `l` (character list version). -/
def charsPre : List Char → List Char → Bool
  | [], _ => true
  | _ :: _, [] => false
  | a :: ps, b :: ls => a == b && charsPre ps ls

/-- Checks that `p` occurs contiguously somewhere inside `l`. -/
def charsSub (p : List Char) : List Char → Bool
  | [] => charsPre p []
  | b :: ls => charsPre p (b :: ls) || charsSub p ls

/-- JavaScript `s.includes(pat)`: substring containment. -/
def strIncl (s pat : String) : Bool :=
  charsSub pat.data s.data

/-- JavaScript `a || d` for an optional string: the default is used when the
string is missing or empty (empty strings are falsy). -/
def strOr (a : Option String) (d : String) : String :=
  match a with
  | some s => if s = "" then d else s
  | none => d

/-- JavaScript `a || null` for an optional string: an empty string collapses
to null. -/
def optStrOrNull (a : Option String) : Option String :=
  match a with
  | some s => if s = "" then none else some s
  | none => none

/-- JavaScript truthiness of an optional string (`!!s`). -/
def optStrTruthy (a : Option String) : Bool :=
  match a with
  | some s => s ≠ ""
  | none => false

/-- JavaScript `s.toLowerCase()` over the character list (the issue
statuses involved are ASCII).  Equals `String.toLower`, but in a form the
kernel evaluates. -/
def strLower (s : String) : String :=
  String.mk (s.data.map Char.toLower)

/-! ## Status classification (src/jira-handler.ts, categorizeStatus) -/

/-- The three status categories produced by `categorizeStatus`. -/
inductive StatusCategory where
  | completed
  | inProgress
  | todo
deriving DecidableEq

/-- Embeds `categorizeStatus` from src/jira-handler.ts: case-insensitive
exact match on done/closed/resolved gives completed; a status containing
progress, review or testing is in progress; everything else is todo. -/
def categorizeStatus (status : String) : StatusCategory :=
  let statusLower := strLower status
  if statusLower = "done" || statusLower = "closed" || statusLower = "resolved" then
    .completed
  else if strIncl statusLower "progress" || strIncl statusLower "review"
      || strIncl statusLower "testing" then
    .inProgress
  else
    .todo

/-! ## Raw Jira issue records (src/types/index.ts, JiraIssue) -/

/-- Body of a Jira comment: a plain string, an ADF document (of which
`extractCommentText` only reads the first paragraph text node, recorded
here), or a null/unrecognized shape. -/
inductive CommentBody where
  | nullBody
  | str (s : String)
  | adf (firstText : Option String)
deriving DecidableEq

/-- One raw Jira comment (fields.comment.comments entries). -/
structure JiraComment where
  authorDisplayName : Option String
  created : Option String
  body : CommentBody
deriving DecidableEq

/-- Raw assignee object of a Jira issue. -/
structure JiraAssignee where
  displayName : String
  emailAddress : Option String
deriving DecidableEq

/-- Raw Jira issue as fetched upstream.  Optional chaining through the
`fields` object is collapsed into per-field `Option`s. -/
structure JiraIssue where
  key : String
  summary : Option String
  statusName : Option String
  assignee : Option JiraAssignee
  updated : Option String
  created : Option String
  duedate : Option String
  priorityName : Option String
  labels : Option (List String)
  projectKey : Option String
  comments : Option (List JiraComment)
deriving DecidableEq

/-- Embeds `extractCommentText` from src/jira-handler.ts (the 200-character
`substring` truncation is modelled with `String.take`). -/
def extractCommentText (body : CommentBody) : String :=
  match body with
  | .nullBody => "No text content"
  | .str s => s.take 200
  | .adf firstText =>
    match firstText with
    | some t => t.take 200
    | none => "No text content"

/-- Last-comment summary attached to a processed issue. -/
structure LastComment where
  author : String
  created : String
  body : String
deriving DecidableEq

/-- The four problem categories an issue can carry. -/
inductive IssueCategory where
  | stale
  | overdue
  | unassigned
  | blocked
deriving DecidableEq, BEq

/-- Processed issue data (src/types/index.ts, IssueData). -/
structure IssueData where
  key : String
  summary : String
  status : String
  assignee : String
  assigneeEmail : Option String
  updated : String
  duedate : Option String
  priority : String
  daysSinceUpdate : Int
  url : String
  labels : List String
  lastComment : Option LastComment
deriving DecidableEq

/-- IssueData together with its computed category set
(src/types/index.ts, CategorizedIssue).  The `toIssueData` projection
mirrors the rest-spread `const \x7b categories, ...issueData \x7d`. -/
structure CategorizedIssue extends IssueData where
  categories : List IssueCategory
deriving DecidableEq

/-- Time-dependent environment of the handler: the current instant, the
date parser, the rendered report date and the configured Jira base URL. -/
structure TimeEnv where
  now : Int
  parseDate : String → Int
  dateStr : String
  baseUrl : String

/-- Milliseconds in a day (`1000 * 60 * 60 * 24`). -/
def msPerDay : Int := 86400000

/-- Embeds `processIssue` from src/jira-handler.ts.  `Math.floor` of the
millisecond difference divided by a day is `Int.fdiv`. -/
def processIssue (env : TimeEnv) (issue : JiraIssue) (daysStale : Int) :
    CategorizedIssue :=
  let status := strOr issue.statusName "Unknown"
  let statusLower := strLower status
  let updated := strOr issue.updated (strOr issue.created "")
  let duedate := optStrOrNull issue.duedate
  let daysSinceUpdate : Int :=
    if updated = "" then 0
    else Int.fdiv (env.now - env.parseDate updated) msPerDay
  let lastComment : Option LastComment :=
    match issue.comments with
    | some cs =>
      if h : cs ≠ [] then
        let c := cs.getLast h
        some { author := strOr c.authorDisplayName "Unknown"
               created := c.created.getD ""
               body := extractCommentText c.body }
      else none
    | none => none
  let labels := issue.labels.getD []
  let isCompleted := categorizeStatus status = .completed
  let categories : List IssueCategory :=
    if isCompleted then []
    else
      (if daysSinceUpdate > daysStale then [IssueCategory.stale] else [])
      ++ (match duedate with
          | some d => if env.parseDate d < env.now then [IssueCategory.overdue] else []
          | none => [])
      ++ (if issue.assignee.isNone then [IssueCategory.unassigned] else [])
      ++ (if labels.contains "blocked" || labels.contains "impediment"
            || strIncl statusLower "blocked" then [IssueCategory.blocked] else [])
  { key := issue.key
    summary := strOr issue.summary "No summary"
    status := status
    assignee := strOr (issue.assignee.map JiraAssignee.displayName) "Unassigned"
    assigneeEmail := optStrOrNull (issue.assignee.bind JiraAssignee.emailAddress)
    updated := updated
    duedate := duedate
    priority := strOr issue.priorityName "None"
    daysSinceUpdate := daysSinceUpdate
    url := env.baseUrl ++ "/browse/" ++ issue.key
    labels := labels
    lastComment := lastComment
    categories := categories }

/-! ## Standup report data model (src/types/index.ts) -/

/-- Active sprint metadata (src/types/index.ts, Sprint). -/
structure Sprint where
  id : Nat
  name : String
  state : String
  startDate : Option String
  endDate : Option String
  originBoardId : Nat
deriving DecidableEq

/-- Per-assignee aggregation (src/types/index.ts, AssigneeReport). -/
structure AssigneeReport where
  name : String
  email : Option String
  issues : List IssueData
  staleCount : Nat
  overdueCount : Nat
deriving DecidableEq

/-- Sprint-level counters (src/types/index.ts, SprintSummary). -/
structure SprintSummary where
  totalSprintIssues : Nat
  completedIssues : Nat
  inProgressIssues : Nat
  todoIssues : Nat
  projectFiltered : Bool
  projectKey : Option String
deriving DecidableEq

/-- The standup report (src/types/index.ts, StandupReport).  The
`byAssignee` JavaScript object is modelled as an association list in key
insertion order, matching object key enumeration order. -/
structure StandupReport where
  sprintName : String
  sprintId : Nat
  date : String
  staleIssues : List IssueData
  overdueIssues : List IssueData
  unassignedIssues : List IssueData
  blockedIssues : List IssueData
  byAssignee : List (String × AssigneeReport)
  summary : SprintSummary
deriving DecidableEq

/-- Applies `f` at key `k` of the association map when present, otherwise
appends `(k, f init)`; mirrors the create-if-absent-then-mutate pattern on
`report.byAssignee` in the handler. -/
def upsertAssignee (m : List (String × AssigneeReport)) (k : String)
    (init : AssigneeReport) (f : AssigneeReport → AssigneeReport) :
    List (String × AssigneeReport) :=
  match m with
  | [] => [(k, f init)]
  | (k0, v0) :: rest =>
    if k0 = k then (k0, f v0) :: rest
    else (k0, v0) :: upsertAssignee rest k init f

/-- Project filter applied per issue in the standup loop: with a truthy
`projectKey` argument, an issue whose project key differs is skipped. -/
def passesFilter (pk : Option String) (issue : JiraIssue) : Bool :=
  match pk with
  | none => true
  | some k => if k = "" then true else issue.projectKey == some k

/-- The initial report of the jira_daily_standup_report case (before the
issues.forEach loop). -/
def initReport (env : TimeEnv) (sprint : Sprint) (pk : Option String) :
    StandupReport :=
  { sprintName := sprint.name
    sprintId := sprint.id
    date := env.dateStr
    staleIssues := []
    overdueIssues := []
    unassignedIssues := []
    blockedIssues := []
    byAssignee := []
    summary :=
      { totalSprintIssues := 0
        completedIssues := 0
        inProgressIssues := 0
        todoIssues := 0
        projectFiltered := optStrTruthy pk
        projectKey := optStrOrNull pk } }

/-- One iteration of the issues.forEach loop of the
jira_daily_standup_report case in `handleJiraTool`. -/
def stepIssue (env : TimeEnv) (pk : Option String) (daysStale : Int)
    (r : StandupReport) (issue : JiraIssue) : StandupReport :=
  if passesFilter pk issue = false then r
  else
    let r1 := { r with summary := { r.summary with
      totalSprintIssues := r.summary.totalSprintIssues + 1 } }
    let p := processIssue env issue daysStale
    match categorizeStatus p.status with
    | .completed =>
      { r1 with summary := { r1.summary with
          completedIssues := r1.summary.completedIssues + 1 } }
    | sc =>
      let r2 :=
        if sc = .inProgress then
          { r1 with summary := { r1.summary with
              inProgressIssues := r1.summary.inProgressIssues + 1 } }
        else
          { r1 with summary := { r1.summary with
              todoIssues := r1.summary.todoIssues + 1 } }
      let d := p.toIssueData
      let r3 := if p.categories.contains .stale then
          { r2 with staleIssues := r2.staleIssues ++ [d] } else r2
      let r4 := if p.categories.contains .overdue then
          { r3 with overdueIssues := r3.overdueIssues ++ [d] } else r3
      let r5 := if p.categories.contains .unassigned then
          { r4 with unassignedIssues := r4.unassignedIssues ++ [d] } else r4
      let r6 := if p.categories.contains .blocked then
          { r5 with blockedIssues := r5.blockedIssues ++ [d] } else r5
      let freshAssignee : AssigneeReport :=
        { name := p.assignee
          email := p.assigneeEmail
          issues := []
          staleCount := 0
          overdueCount := 0 }
      let bump : AssigneeReport → AssigneeReport := fun a =>
        { a with
          issues := a.issues ++ [d]
          staleCount := a.staleCount
            + (if p.categories.contains .stale then 1 else 0)
          overdueCount := a.overdueCount
            + (if p.categories.contains .overdue then 1 else 0) }
      { r6 with byAssignee := upsertAssignee r6.byAssignee p.assignee freshAssignee bump }

/-- Order on processed issues used for `staleIssues`: descending in
`daysSinceUpdate` (comparator `(a, b) => b.daysSinceUpdate - a.daysSinceUpdate`). -/
def staleOrd (a b : IssueData) : Prop :=
  b.daysSinceUpdate ≤ a.daysSinceUpdate

instance : DecidableRel staleOrd := fun a b =>
  inferInstanceAs (Decidable (b.daysSinceUpdate ≤ a.daysSinceUpdate))

instance : IsTotal IssueData staleOrd :=
  ⟨fun a b => le_total b.daysSinceUpdate a.daysSinceUpdate⟩

instance : IsTrans IssueData staleOrd :=
  ⟨fun _ _ _ hab hbc => le_trans hbc hab⟩

/-- Order on processed issues used for `overdueIssues`: ascending in due
date, an absent date standing for the empty string (comparator
`(a, b) => (a.duedate || two-quotes).localeCompare(b.duedate || ...)`,
which on ISO dates coincides with plain lexicographic comparison). -/
def dueOrd (a b : IssueData) : Prop :=
  a.duedate.getD "" ≤ b.duedate.getD ""

instance : DecidableRel dueOrd := fun a b =>
  inferInstanceAs (Decidable ((a.duedate.getD "") ≤ (b.duedate.getD "")))

instance : IsTotal IssueData dueOrd :=
  ⟨fun a b => le_total (a.duedate.getD "") (b.duedate.getD "")⟩

instance : IsTrans IssueData dueOrd :=
  ⟨fun _ _ _ hab hbc => le_trans hab hbc⟩

/-- The full report construction of the jira_daily_standup_report case:
fold the per-issue step over the fetched issues, then sort the stale and
overdue lists. -/
def buildStandupReport (env : TimeEnv) (sprint : Sprint) (pk : Option String)
    (daysStale : Int) (issues : List JiraIssue) : StandupReport :=
  let r := issues.foldl (stepIssue env pk daysStale) (initReport env sprint pk)
  { r with
    staleIssues := List.insertionSort staleOrd r.staleIssues
    overdueIssues := List.insertionSort dueOrd r.overdueIssues }

/-! ## Cache store (src/utils/cache.ts, CacheManager)

The real `sprintCache` multiplexes sprints, issue lists and reports through
disjoint key shapes in one heterogeneous store; here each value kind gets a
typed view with the same per-key semantics.  The periodic background sweep
is time-driven and not modelled; expiry is still enforced lazily on `get`
exactly as in the source. -/

/-- One cache entry (src/types/index.ts, CacheEntry). -/
structure CEntry (α : Type) where
  data : α
  expiry : Int
  key : String
deriving DecidableEq

/-- A cache store instance: key-prefixed, TTL-bearing, size-bounded, with
hit/miss accounting.  Entries are kept in Map insertion order. -/
structure CacheStore (α : Type) where
  pfx : String
  entries : List (String × CEntry α)
  defaultTTL : Nat
  maxSize : Nat
  hitCount : Nat
  missCount : Nat
deriving DecidableEq

/-- JavaScript Map lookup over the association list. -/
def assocFind {α : Type} (l : List (String × α)) (k : String) : Option α :=
  match l with
  | [] => none
  | (k0, v) :: rest => if k0 = k then some v else assocFind rest k

/-- JavaScript `Map.set`: replace in place when the key exists, append
otherwise. -/
def assocSet {α : Type} (l : List (String × α)) (k : String) (v : α) :
    List (String × α) :=
  match l with
  | [] => [(k, v)]
  | (k0, v0) :: rest =>
    if k0 = k then (k0, v) :: rest else (k0, v0) :: assocSet rest k v

/-- JavaScript `Map.delete`. -/
def assocDrop {α : Type} (l : List (String × α)) (k : String) :
    List (String × α) :=
  match l with
  | [] => []
  | (k0, v0) :: rest =>
    if k0 = k then rest else (k0, v0) :: assocDrop rest k

/-- `getFullKey`: prepend the store prefix when one is configured. -/
def fullKey {α : Type} (c : CacheStore α) (key : String) : String :=
  if c.pfx = "" then key else c.pfx ++ ":" ++ key

/-- Embeds `CacheManager.get`: a missing key or an expired entry is a miss
(the expired entry being deleted on the spot); otherwise the data is
returned. -/
def cacheGet {α : Type} (c : CacheStore α) (now : Int) (key : String) :
    Option α × CacheStore α :=
  match assocFind c.entries (fullKey c key) with
  | none => (none, { c with missCount := c.missCount + 1 })
  | some e =>
    if now > e.expiry then
      (none, { c with entries := assocDrop c.entries (fullKey c key),
                      missCount := c.missCount + 1 })
    else
      (some e.data, { c with hitCount := c.hitCount + 1 })

/-- Entry with the soonest expiry (the one `evictOldest` removes). -/
def oldestKey {α : Type} (l : List (String × CEntry α)) : Option String :=
  match l with
  | [] => none
  | (k, e) :: rest =>
    match oldestKey rest with
    | none => some k
    | some k2 =>
      match assocFind rest k2 with
      | none => some k
      | some e2 => if e2.expiry < e.expiry then some k2 else some k

/-- Embeds `CacheManager.evictOldest`. -/
def evictOldest {α : Type} (l : List (String × CEntry α)) :
    List (String × CEntry α) :=
  match oldestKey l with
  | none => l
  | some k => assocDrop l k

/-- Embeds `CacheManager.set`: `ttlSeconds || defaultTTL`, capacity check
with eviction of the soonest-expiring entry, then Map.set with
`expiry = now + ttl * 1000`. -/
def cacheSet {α : Type} (c : CacheStore α) (now : Int) (key : String)
    (data : α) (ttlSeconds : Option Nat) : CacheStore α :=
  let ttl := match ttlSeconds with
    | some t => if t = 0 then c.defaultTTL else t
    | none => c.defaultTTL
  let fk := fullKey c key
  let entries :=
    if c.entries.length ≥ c.maxSize ∧ (assocFind c.entries fk).isNone then
      evictOldest c.entries
    else c.entries
  { c with entries := assocSet entries fk ⟨data, now + ttl * 1000, fk⟩ }

/-! ## Cache key builders (src/utils/cache.ts, CacheKeys) -/

/-- `CacheKeys.sprint`. -/
def sprintKey (boardId : Nat) : String :=
  "sprint:" ++ toString boardId

/-- `CacheKeys.sprintIssues`. -/
def sprintIssuesKey (sprintId : Nat) : String :=
  "sprint-issues:" ++ toString sprintId

/-- `CacheKeys.standupReport`: built from the board id and the optional
project key only (a falsy project key drops the suffix). -/
def standupReportKey (boardId : Nat) (projectKey : Option String) : String :=
  match projectKey with
  | some k =>
    if k = "" then "standup:" ++ toString boardId
    else "standup:" ++ toString boardId ++ ":" ++ k
  | none => "standup:" ++ toString boardId

/-! ## Error model (src/utils/errors.ts, src/types/index.ts) -/

/-- The error codes of src/types/index.ts used by the Jira handler paths. -/
inductive ECode where
  | configInvalid
  | validationFailed
  | apiGeneric
  | apiTimeout
  | apiRateLimit
  | apiUnauthorized
  | apiNotFound
  | jiraBoardNotFound
  | jiraSprintNotFound
  | jiraIssueNotFound
  | jiraPermissionDenied
  | unknownTool
  | internalError
deriving DecidableEq

/-- Payload of an `ApiError` (also covering its subclasses `JiraError` and
`SlackError`): message, code, optional HTTP status, endpoint and method. -/
structure ApiErrorData where
  message : String
  code : ECode
  statusCode : Option Nat
  endpoint : Option String
  method : Option String
deriving DecidableEq

/-- The relevant parts of a raw axios error consumed by
`ApiError.fromAxiosError`: the response status and the candidate message
sources in the response body. -/
structure AxiosErrorData where
  statusCode : Option Nat
  url : Option String
  method : Option String
  dataErrorMessages : Option (List String)
  dataMessage : Option String
  dataError : Option String
deriving DecidableEq

/-- Embeds `ApiError.fromAxiosError` (no custom message, as at every call
site of the repository): status-code driven code/message mapping, with the
default branch extracting a message from the response body. -/
def fromAxiosError (e : AxiosErrorData) : ApiErrorData :=
  let defaultMessage :=
    match e.dataErrorMessages with
    | some (m :: ms) => String.intercalate ", " (m :: ms)
    | _ =>
      match optStrOrNull e.dataMessage with
      | some m => m
      | none =>
        match optStrOrNull e.dataError with
        | some m => m
        | none => "API request failed"
  let (code, message) : ECode × String :=
    if e.statusCode = some 401 then (.apiUnauthorized, "Authentication failed")
    else if e.statusCode = some 404 then (.apiNotFound, "Resource not found")
    else if e.statusCode = some 429 then (.apiRateLimit, "Rate limit exceeded")
    else if e.statusCode = some 408 ∨ e.statusCode = some 504 then
      (.apiTimeout, "Request timed out")
    else (.apiGeneric, defaultMessage)
  { message := message
    code := code
    statusCode := e.statusCode
    endpoint := e.url
    method := e.method }

/-- Every kind of thrown value reaching the top-level handler: `ApiError`
instances (and subclasses), `ConfigError`, the validation error of
src/utils/validation.ts (a plain `Error` subclass, not a `BaseError`), raw
axios errors, other plain `Error`s, and non-Error thrown values. -/
inductive AppError where
  | api (d : ApiErrorData)
  | configErr (message : String)
  | validationErr (message : String)
  | axiosRaw (e : AxiosErrorData)
  | jsError (message : String)
  | unknownThrown
deriving DecidableEq

/-- `JiraError.sprintNotFound`. -/
def sprintNotFoundError (boardId : Nat) : AppError :=
  .api { message := "No active sprint found for board " ++ toString boardId
         code := .jiraSprintNotFound
         statusCode := some 404
         endpoint := none
         method := none }

/-! ## Retry executor (src/utils/errors.ts, RetryHelper.retry) -/

/-- Embeds the default `shouldRetry` of `RetryHelper.retry`: only an
`ApiError` instance is retryable, and only when `(statusCode || 0)` is at
least 500 or exactly 429, or the code is the timeout classification. -/
def defaultShouldRetry (e : AppError) (_attempt : Nat) : Bool :=
  match e with
  | .api d =>
    decide (500 ≤ d.statusCode.getD 0) || d.statusCode.getD 0 == 429
      || d.code == .apiTimeout
  | _ => false

/-- Embeds the attempt loop of `RetryHelper.retry`.  The operation is a map
from attempt number (starting at 1) to its outcome.  The second component
collects the backoff delays actually slept, in order.  The guard
`attempt ≥ maxA` is the loop bound `attempt === maxAttempts`, which under
the entry condition `attempt = 1 ≤ maxA` visits the same states. -/
def retryAux {ε α : Type} (op : Nat → Except ε α) (sr : ε → Nat → Bool)
    (maxA factor maxD : Nat) (attempt delay : Nat) : Except ε α × List Nat :=
  match op attempt with
  | .ok v => (.ok v, [])
  | .error e =>
    if attempt ≥ maxA then (.error e, [])
    else if sr e attempt = false then (.error e, [])
    else
      let rest := retryAux op sr maxA factor maxD (attempt + 1)
        (min (delay * factor) maxD)
      (rest.1, delay :: rest.2)
termination_by maxA - attempt
decreasing_by omega

/-- `RetryHelper.retry` with the default options of the source
(`maxAttempts = 3`, `initialDelay = 1000`, `maxDelay = 10000`, `factor = 2`,
default `shouldRetry`), as used with `\x7b maxAttempts: 3 \x7d` at the call
sites. -/
def retryDefault {α : Type} (op : Nat → Except AppError α) :
    Except AppError α × List Nat :=
  retryAux op defaultShouldRetry 3 2 10000 1 1000

/-! ## Error handler (src/utils/errors.ts, ErrorHandler.handle)

Modelled for the production configuration (NODE_ENV not development), so
the development-only context/stack additions are the fixed production
alternatives.  The wall-clock timestamp string inside `details` is not
modelled; the structured code it accompanies is. -/

/-- Structured details of an error response: the code-bearing object of a
`BaseError.toResponse`, the fixed text of the generic-Error branch, or
nothing. -/
inductive ErrDetails where
  | codeDetails (code : ECode)
  | textDetails (s : String)
  | noDetails
deriving DecidableEq

/-- The uniform error response (src/types/index.ts, ErrorResponse). -/
structure ErrorResponse where
  error : String
  tool : String
  status : Option Nat
  details : ErrDetails
deriving DecidableEq

/-- Embeds `ErrorHandler.handle`: `BaseError` instances answer through
`toResponse`, raw axios errors are first classified by `fromAxiosError`,
plain `Error`s and unknown thrown values get the fixed 500 responses. -/
def errorHandlerHandle (e : AppError) (tool : String) : ErrorResponse :=
  match e with
  | .api d =>
    { error := d.message, tool := tool, status := d.statusCode
      details := .codeDetails d.code }
  | .configErr m =>
    { error := m, tool := tool, status := some 500
      details := .codeDetails .configInvalid }
  | .axiosRaw ax =>
    let d := fromAxiosError ax
    { error := d.message, tool := tool, status := d.statusCode
      details := .codeDetails d.code }
  | .validationErr m =>
    { error := m, tool := tool, status := some 500
      details := .textDetails "An unexpected error occurred" }
  | .jsError m =>
    { error := m, tool := tool, status := some 500
      details := .textDetails "An unexpected error occurred" }
  | .unknownThrown =>
    { error := "An unknown error occurred", tool := tool, status := some 500
      details := .noDetails }

/-- The message carried by a thrown value (what `handle` surfaces in the
`error` field). -/
def errMessage (e : AppError) : String :=
  match e with
  | .api d => d.message
  | .configErr m => m
  | .axiosRaw ax => (fromAxiosError ax).message
  | .validationErr m => m
  | .jsError m => m
  | .unknownThrown => "An unknown error occurred"

/-- The status surfaced by `handle`: the status carried by a structured or
classified upstream error, 500 for everything else. -/
def errStatus (e : AppError) : Option Nat :=
  match e with
  | .api d => d.statusCode
  | .axiosRaw ax => ax.statusCode
  | _ => some 500

/-- MCP tool response content item. -/
inductive ToolContent where
  | text (s : String)
deriving DecidableEq

/-- MCP tool response (src/types/index.ts, ToolResponse). -/
structure ToolResponse where
  content : List ToolContent
deriving DecidableEq

/-- Rendering of an error response into the JSON text returned to the
caller; serialization details (JSON.stringify with indentation) are
abstracted into field concatenation. -/
def renderErrorResponse (r : ErrorResponse) : String :=
  "error=" ++ r.error ++ ";tool=" ++ r.tool ++ ";status="
    ++ (match r.status with | some s => toString s | none => "")

/-- The catch branch of `handleJiraTool`: the centralized handler output,
serialized into a text tool response. -/
def errorToolResponse (r : ErrorResponse) : ToolResponse :=
  ⟨[.text (renderErrorResponse r)]⟩

/-- The top-level try/catch of `handleJiraTool`: `inner` is the outcome of
the switch body for the requested tool (any of whose statements may throw);
a thrown value is converted by `ErrorHandler.handle` and returned as a
normal response. -/
def handleJiraToolWith (inner : Except AppError ToolResponse)
    (name : String) : ToolResponse :=
  match inner with
  | .ok r => r
  | .error e => errorToolResponse (errorHandlerHandle e name)

/-! ## Issue-tracker gateway (src/jira-handler.ts) -/

/-- One page of the sprint-issue endpoint response: `data.issues` and
`data.total`, both possibly absent (`|| []` and `|| 0` defaults applied at
use sites as in the source). -/
structure IssuePage where
  issues : Option (List JiraIssue)
  total : Option Nat
deriving DecidableEq

/-- Full environment of the Jira handler: time parameters plus the
post-retry outcomes of the upstream fetches (sprint list per board, issue
page per sprint and offset) and the iteration bound for the pagination
loop (whose termination depends on server-reported totals). -/
structure JiraEnv where
  time : TimeEnv
  fetchSprints : Nat → Except AppError (List Sprint)
  fetchIssuePage : Nat → Nat → Except AppError IssuePage
  fetchFuel : Nat

/-- Embeds `getActiveSprint`: cache first; on miss, the fetched sprint list
is consulted, its head (or null) returned, and only a non-null sprint is
cached, for 600 seconds. -/
def getActiveSprint (cache : CacheStore Sprint) (now : Int) (boardId : Nat)
    (fetched : Except AppError (List Sprint)) :
    Except AppError (Option Sprint × CacheStore Sprint) :=
  let res := cacheGet cache now (sprintKey boardId)
  match res.1 with
  | some s => .ok (some s, res.2)
  | none =>
    match fetched with
    | .error e => .error e
    | .ok values =>
      match values.head? with
      | some s =>
        .ok (some s, cacheSet res.2 now (sprintKey boardId) s (some 600))
      | none => .ok (none, res.2)

/-- Embeds the do/while loop of `getSprintTicketsPaginated` merged with the
accumulation of `getSprintTickets`: fetch the page at `startAt`, append its
issues, advance `startAt` by the page size, and continue while it is below
the reported total.  The second component counts page fetches.  `fuel`
bounds the number of loop continuations; every theorem below supplies
enough fuel for the server at hand, so the fuel-exhaustion branch is not
exercised. -/
def paginateAux (fetch : Nat → Except AppError IssuePage) (pageSize : Nat) :
    Nat → Nat → List JiraIssue → Nat → Except AppError (List JiraIssue × Nat)
  | fuel, startAt, acc, count =>
    match fetch startAt with
    | .error e => .error e
    | .ok page =>
      let acc2 := acc ++ page.issues.getD []
      let count2 := count + 1
      let next := startAt + pageSize
      let total := page.total.getD 0
      if next < total then
        match fuel with
        | 0 => .ok (acc2, count2)
        | f + 1 => paginateAux fetch pageSize f next acc2 count2
      else .ok (acc2, count2)

/-- Embeds `getSprintTickets`: cache first; on miss, paginate from offset 0
with page size 50, cache the full accumulation for 300 seconds on success,
and let a page failure propagate with nothing cached. -/
def getSprintTickets (cache : CacheStore (List JiraIssue)) (now : Int)
    (sprintId : Nat) (fetch : Nat → Except AppError IssuePage) (fuel : Nat) :
    Except AppError (List JiraIssue) × CacheStore (List JiraIssue) :=
  let res := cacheGet cache now (sprintIssuesKey sprintId)
  match res.1 with
  | some issues => (.ok issues, res.2)
  | none =>
    match paginateAux fetch 50 fuel 0 [] 0 with
    | .error e => (.error e, res.2)
    | .ok (issues, _) =>
      (.ok issues, cacheSet res.2 now (sprintIssuesKey sprintId) issues (some 300))

/-- An upstream server holding exactly the issue list `L`: the page at
offset `s` is the next 50 issues and the reported total is the length of
`L`.  Used to state the pagination scenario. -/
def listServer (L : List JiraIssue) (s : Nat) : Except AppError IssuePage :=
  .ok ⟨some ((L.drop s).take 50), some L.length⟩

/-! ## Input validation (src/utils/validation.ts, DailyStandupReportSchema) -/

/-- Raw arguments of jira_daily_standup_report (shape already object-typed;
the strict-object unknown-key rejection concerns dynamic shapes outside
this embedding). -/
structure StandupArgsRaw where
  boardId : Int
  projectKey : Option String
  daysStale : Option Int
  includeUnassigned : Option Bool
deriving DecidableEq

/-- Validated arguments (z.infer of DailyStandupReportSchema: optional
members stay absent when not provided). -/
structure StandupArgs where
  boardId : Nat
  projectKey : Option String
  daysStale : Option Nat
  includeUnassigned : Option Bool
deriving DecidableEq

/-- The project-key pattern of the schema: 2 to 10 uppercase letters. -/
def validProjectKey (s : String) : Bool :=
  2 ≤ s.length && s.length ≤ 10 && s.data.all (fun c => decide ('A' ≤ c) && decide (c ≤ 'Z'))

/-- Embeds `validate DailyStandupReportSchema`: positive integer board id,
optional project key matching the pattern, optional daysStale between 1 and
30, optional boolean includeUnassigned; a failure throws the validation
error of src/utils/validation.ts. -/
def validateStandup (raw : StandupArgsRaw) : Except AppError StandupArgs :=
  if raw.boardId ≤ 0 then .error (.validationErr "Input validation failed")
  else if (match raw.projectKey with
           | some k => !(validProjectKey k)
           | none => false) then
    .error (.validationErr "Input validation failed")
  else if (match raw.daysStale with
           | some d => decide (d < 1) || decide (30 < d)
           | none => false) then
    .error (.validationErr "Input validation failed")
  else
    .ok { boardId := raw.boardId.toNat
          projectKey := raw.projectKey
          daysStale := raw.daysStale.map Int.toNat
          includeUnassigned := raw.includeUnassigned }

/-! ## The jira_daily_standup_report case of `handleJiraTool` -/

/-- The typed views of the shared `sprintCache` store used by the standup
path, all carrying its prefix, default TTL and capacity. -/
structure Caches where
  sprintC : CacheStore Sprint
  issuesC : CacheStore (List JiraIssue)
  reportC : CacheStore StandupReport
deriving DecidableEq

/-- The body of the jira_daily_standup_report case after validation:
report-cache check keyed by board and project key, sprint resolution (a
missing sprint throws), issue fetch, report construction, report caching
for 300 seconds.  `validatedArgs.daysStale || 2` supplies the default.
The `includeUnassigned` member of the validated arguments is never read,
as in the source. -/
def standupAfterValidate (env : JiraEnv) (st : Caches) (a : StandupArgs) :
    Except AppError (StandupReport × Caches) :=
  let daysStale : Nat :=
    match a.daysStale with
    | some d => if d = 0 then 2 else d
    | none => 2
  let key := standupReportKey a.boardId a.projectKey
  let res := cacheGet st.reportC env.time.now key
  match res.1 with
  | some r => .ok (r, { st with reportC := res.2 })
  | none =>
    match getActiveSprint st.sprintC env.time.now a.boardId
        (env.fetchSprints a.boardId) with
    | .error e => .error e
    | .ok (none, _) => .error (sprintNotFoundError a.boardId)
    | .ok (some sprint, sc) =>
      match getSprintTickets st.issuesC env.time.now sprint.id
          (env.fetchIssuePage sprint.id) env.fetchFuel with
      | (.error e, _) => .error e
      | (.ok issues, ic) =>
        let report := buildStandupReport env.time sprint a.projectKey
          (Int.ofNat daysStale) issues
        let rc := cacheSet res.2 env.time.now key report (some 300)
        .ok (report, { sprintC := sc, issuesC := ic, reportC := rc })

/-- The jira_daily_standup_report case: validation then the body above. -/
def standupCase (env : JiraEnv) (st : Caches) (raw : StandupArgsRaw) :
    Except AppError (StandupReport × Caches) :=
  match validateStandup raw with
  | .error e => .error e
  | .ok a => standupAfterValidate env st a

/-! ## Concrete instances used to exhibit the hypotheses of the theorems -/

/-- A concrete clock: 10 days past the (abstracted) epoch, every date
string parsing to the epoch. -/
def envW : TimeEnv :=
  ⟨864000000, fun _ => 0, "2026-10-12", "https://jira.example.com"⟩

/-- A concrete active sprint. -/
def sprintW : Sprint := ⟨7, "Sprint 42", "active", none, none, 3⟩

/-- A concrete completed issue. -/
def issueDoneW : JiraIssue :=
  ⟨"WEB-1", some "Ship feature", some "Done",
   some ⟨"Alice", some "alice@example.com"⟩, some "2026-10-01", none, none,
   some "High", some [], some "WEB", none⟩

/-- A concrete stale, overdue, blocked in-progress issue. -/
def issueLateW : JiraIssue :=
  ⟨"WEB-2", some "Slow task", some "In Progress", none, some "2026-10-01",
   none, some "2026-10-05", some "High", some ["blocked"], some "WEB", none⟩

/-- A concrete (empty) standup report used as a cached value. -/
def reportW : StandupReport :=
  { sprintName := "Sprint 42", sprintId := 7, date := "2026-10-12"
    staleIssues := [], overdueIssues := [], unassignedIssues := []
    blockedIssues := [], byAssignee := []
    summary := ⟨0, 0, 0, 0, false, none⟩ }

/-- A report-cache view holding `reportW` for board 7, unexpired. -/
def reportStoreW : CacheStore StandupReport :=
  ⟨"sprint", [("sprint:standup:7", ⟨reportW, 2000000000, "sprint:standup:7"⟩)],
   600, 1000, 0, 0⟩

/-- `reportStoreW` after one cache hit. -/
def reportStoreHitW : CacheStore StandupReport :=
  { reportStoreW with hitCount := 1 }

/-- An empty sprint-cache view. -/
def sprintStoreW : CacheStore Sprint := ⟨"sprint", [], 600, 1000, 0, 0⟩

/-- An empty issue-cache view. -/
def issuesStoreW : CacheStore (List JiraIssue) := ⟨"sprint", [], 600, 1000, 0, 0⟩

/-- The combined cache state of the witnesses. -/
def cachesW : Caches := ⟨sprintStoreW, issuesStoreW, reportStoreW⟩

/-- A concrete handler environment. -/
def envJW : JiraEnv := ⟨envW, fun _ => .ok [sprintW], fun _ s => listServer [] s, 10⟩

/-- Raw request: board 7, daysStale 2. -/
def raw1W : StandupArgsRaw := ⟨7, none, some 2, none⟩

/-- Raw request: board 7, daysStale 9, includeUnassigned true. -/
def raw2W : StandupArgsRaw := ⟨7, none, some 9, some true⟩

/-- Raw request: like `raw1W` but with includeUnassigned false. -/
def raw3W : StandupArgsRaw := ⟨7, none, some 2, some false⟩

/-- Validated form of `raw1W`. -/
def a1W : StandupArgs := ⟨7, none, some 2, none⟩

/-- Validated form of `raw2W`. -/
def a2W : StandupArgs := ⟨7, none, some 9, some true⟩

/-- Validated form of `raw3W`. -/
def a3W : StandupArgs := ⟨7, none, some 2, some false⟩

/-- A minimal issue with only a key, for bulk lists. -/
def mkIssueW (n : Nat) : JiraIssue :=
  ⟨"T-" ++ toString n, none, none, none, none, none, none, none, none, none,
   none⟩

/-- A 120-issue sprint content. -/
def issuesPageListW : List JiraIssue := (List.range 120).map mkIssueW

/-- A concrete retryable upstream failure (HTTP 503). -/
def err503W : AppError :=
  .api ⟨"Service Unavailable", .apiGeneric, some 503, none, none⟩

/-- A page fetch that always fails. -/
def failFetchW : Nat → Except AppError IssuePage := fun _ => .error err503W

/-- An operation failing on attempts 1 and 2 and succeeding on attempt 3. -/
def opSucceed3W : Nat → Except AppError Nat :=
  fun n => if 3 ≤ n then .ok 42 else .error err503W

/-- An operation failing on every attempt. -/
def opFailW : Nat → Except AppError Nat := fun _ => .error err503W

/-- A raw axios failure with HTTP status 408. -/
def ax408W : AxiosErrorData := ⟨some 408, none, none, none, none, none⟩

/-- A raw axios failure with HTTP status 404. -/
def ax404W : AxiosErrorData := ⟨some 404, none, none, none, none, none⟩

/-! ## Verified properties -/

/-- The summary counters of one report step: a filtered-in issue bumps the
total and exactly one of the three status counters. -/
theorem stepIssue_summary (env : TimeEnv) (pk : Option String) (d : Int)
    (r : StandupReport) (issue : JiraIssue) :
    (stepIssue env pk d r issue).summary.totalSprintIssues
        = r.summary.totalSprintIssues
          + (if passesFilter pk issue then 1 else 0)
    ∧ (stepIssue env pk d r issue).summary.completedIssues
        + (stepIssue env pk d r issue).summary.inProgressIssues
        + (stepIssue env pk d r issue).summary.todoIssues
      = r.summary.completedIssues + r.summary.inProgressIssues
        + r.summary.todoIssues
        + (if passesFilter pk issue then 1 else 0) := by
  unfold stepIssue
  rcases hf : passesFilter pk issue with _ | _
  · simp [hf]
  · rw [if_neg (by simp [hf])]
    rcases hc : categorizeStatus (processIssue env issue d).status with _ | _ | _ <;>
      simp only [hc] <;> split_ifs <;> (try simp) <;> omega

/-- C1: for every StandupReport built by the daily-standup-report path, the
summary satisfies totalSprintIssues = completedIssues + inProgressIssues +
todoIssues, the counts being taken over the project-filtered issue set (the
total equals the number of issues passing the project filter). -/
theorem standup_summary_sum (env : TimeEnv) (sprint : Sprint)
    (pk : Option String) (d : Int) (issues : List JiraIssue) :
    (buildStandupReport env sprint pk d issues).summary.totalSprintIssues
      = (buildStandupReport env sprint pk d issues).summary.completedIssues
        + (buildStandupReport env sprint pk d issues).summary.inProgressIssues
        + (buildStandupReport env sprint pk d issues).summary.todoIssues
    ∧ (buildStandupReport env sprint pk d issues).summary.totalSprintIssues
      = (issues.filter (passesFilter pk)).length := by
  have key : ∀ (l : List JiraIssue) (r : StandupReport),
      (l.foldl (stepIssue env pk d) r).summary.totalSprintIssues
          = r.summary.totalSprintIssues + (l.filter (passesFilter pk)).length
      ∧ (l.foldl (stepIssue env pk d) r).summary.completedIssues
          + (l.foldl (stepIssue env pk d) r).summary.inProgressIssues
          + (l.foldl (stepIssue env pk d) r).summary.todoIssues
        = r.summary.completedIssues + r.summary.inProgressIssues
          + r.summary.todoIssues + (l.filter (passesFilter pk)).length := by
    intro l
    induction l with
    | nil => intro r; simp
    | cons i t ih =>
      intro r
      obtain ⟨h1, h2⟩ := stepIssue_summary env pk d r i
      obtain ⟨h3, h4⟩ := ih (stepIssue env pk d r i)
      constructor
      · simp only [List.foldl_cons, h3, h1, List.filter_cons]
        split <;> (simp; try omega)
      · simp only [List.foldl_cons, h4, h2, List.filter_cons]
        split <;> (simp; try omega)
  obtain ⟨h1, h2⟩ := key issues (initReport env sprint pk)
  have hs : (buildStandupReport env sprint pk d issues).summary
      = (issues.foldl (stepIssue env pk d) (initReport env sprint pk)).summary := rfl
  have i1 : (initReport env sprint pk).summary.totalSprintIssues = 0 := rfl
  have i2 : (initReport env sprint pk).summary.completedIssues = 0 := rfl
  have i3 : (initReport env sprint pk).summary.inProgressIssues = 0 := rfl
  have i4 : (initReport env sprint pk).summary.todoIssues = 0 := rfl
  rw [hs]
  constructor <;> omega

/-- A completed status empties the category list of `processIssue`. -/
theorem processIssue_completed_categories (env : TimeEnv) (issue : JiraIssue)
    (d : Int) (h : categorizeStatus (strOr issue.statusName "Unknown") = .completed) :
    (processIssue env issue d).categories = [] := by
  unfold processIssue
  simp [h]

/-- A completed, filtered-in issue only bumps the total and completed
counters of the accumulating report. -/
theorem stepIssue_completed (env : TimeEnv) (pk : Option String) (d : Int)
    (r : StandupReport) (issue : JiraIssue)
    (hpass : passesFilter pk issue = true)
    (hdone : categorizeStatus (processIssue env issue d).status = .completed) :
    stepIssue env pk d r issue
      = { r with summary := { r.summary with
            totalSprintIssues := r.summary.totalSprintIssues + 1,
            completedIssues := r.summary.completedIssues + 1 } } := by
  unfold stepIssue
  rw [if_neg (by simp [hpass])]
  simp only [hdone]

/-- C2: an issue whose status classifies as completed has an empty computed
category set, and appending it to the processed issue list leaves every
category list, the byAssignee map (hence every per-assignee staleCount and
overdueCount) unchanged, while incrementing exactly
summary.totalSprintIssues and summary.completedIssues. -/
theorem standup_completed_excluded (env : TimeEnv) (sprint : Sprint)
    (pk : Option String) (d : Int) (issues : List JiraIssue)
    (issue : JiraIssue)
    (hpass : passesFilter pk issue = true)
    (hdone : categorizeStatus (processIssue env issue d).status = .completed) :
    (processIssue env issue d).categories = []
    ∧ buildStandupReport env sprint pk d (issues ++ [issue])
      = { buildStandupReport env sprint pk d issues with
          summary := { (buildStandupReport env sprint pk d issues).summary with
            totalSprintIssues :=
              (buildStandupReport env sprint pk d issues).summary.totalSprintIssues + 1,
            completedIssues :=
              (buildStandupReport env sprint pk d issues).summary.completedIssues + 1 } } := by
  refine ⟨processIssue_completed_categories env issue d hdone, ?_⟩
  unfold buildStandupReport
  rw [List.foldl_append]
  simp only [List.foldl_cons, List.foldl_nil]
  rw [stepIssue_completed env pk d _ issue hpass hdone]

/-- C4: in every built report, staleIssues is sorted descending by
daysSinceUpdate and overdueIssues ascending by due date, under the pairwise
and the positional formulations. -/
theorem standup_sorted (env : TimeEnv) (sprint : Sprint) (pk : Option String)
    (d : Int) (issues : List JiraIssue) :
    List.Sorted staleOrd (buildStandupReport env sprint pk d issues).staleIssues
    ∧ List.Sorted dueOrd (buildStandupReport env sprint pk d issues).overdueIssues
    ∧ (∀ i j : Fin (buildStandupReport env sprint pk d issues).staleIssues.length,
        i < j →
        ((buildStandupReport env sprint pk d issues).staleIssues.get j).daysSinceUpdate
          ≤ ((buildStandupReport env sprint pk d issues).staleIssues.get i).daysSinceUpdate)
    ∧ (∀ i j : Fin (buildStandupReport env sprint pk d issues).overdueIssues.length,
        i < j →
        (((buildStandupReport env sprint pk d issues).overdueIssues.get i).duedate.getD "")
          ≤ (((buildStandupReport env sprint pk d issues).overdueIssues.get j).duedate.getD "")) := by
  have hst : (buildStandupReport env sprint pk d issues).staleIssues
      = List.insertionSort staleOrd
        ((issues.foldl (stepIssue env pk d) (initReport env sprint pk)).staleIssues) := rfl
  have hov : (buildStandupReport env sprint pk d issues).overdueIssues
      = List.insertionSort dueOrd
        ((issues.foldl (stepIssue env pk d) (initReport env sprint pk)).overdueIssues) := rfl
  have s1 : List.Sorted staleOrd (buildStandupReport env sprint pk d issues).staleIssues := by
    rw [hst]; exact List.sorted_insertionSort staleOrd _
  have s2 : List.Sorted dueOrd (buildStandupReport env sprint pk d issues).overdueIssues := by
    rw [hov]; exact List.sorted_insertionSort dueOrd _
  refine ⟨s1, s2, ?_, ?_⟩
  · intro i j hij
    exact List.pairwise_iff_get.mp s1 i j hij
  · intro i j hij
    exact List.pairwise_iff_get.mp s2 i j hij

/-- Validation passes the board id, project key and daysStale straight
through (integer board ids survive `Int.toNat` on the positive range). -/
theorem validateStandup_fields (raw : StandupArgsRaw) (a : StandupArgs)
    (h : validateStandup raw = .ok a) :
    a.boardId = raw.boardId.toNat ∧ a.projectKey = raw.projectKey
    ∧ a.daysStale = raw.daysStale.map Int.toNat
    ∧ a.includeUnassigned = raw.includeUnassigned := by
  unfold validateStandup at h
  split_ifs at h
  injection h with h2
  subst h2
  exact ⟨rfl, rfl, rfl, rfl⟩

/-- C3: the standup-report cache key is built from the board id and project
key only; a cache hit under that key answers any request with the stored
report unchanged, whatever daysStale (and includeUnassigned) the two
requests carry. -/
theorem standup_cache_hit_ignores_daysStale (env : JiraEnv) (st : Caches)
    (raw1 raw2 : StandupArgsRaw) (a1 a2 : StandupArgs) (r : StandupReport)
    (c1 : CacheStore StandupReport)
    (hv1 : validateStandup raw1 = .ok a1) (hv2 : validateStandup raw2 = .ok a2)
    (hb : a1.boardId = a2.boardId) (hp : a1.projectKey = a2.projectKey)
    (hhit : cacheGet st.reportC env.time.now
        (standupReportKey a1.boardId a1.projectKey) = (some r, c1)) :
    standupCase env st raw1 = .ok (r, { st with reportC := c1 })
    ∧ standupCase env st raw2 = .ok (r, { st with reportC := c1 }) := by
  constructor
  · unfold standupCase
    rw [hv1]
    unfold standupAfterValidate
    simp only [hhit]
  · unfold standupCase
    rw [hv2]
    show standupAfterValidate env st a2 = _
    unfold standupAfterValidate
    rw [← hb, ← hp]
    simp only [hhit]

/-- Two validated argument records agreeing outside includeUnassigned drive
the standup body identically (the body never reads that member). -/
theorem standupAfterValidate_ignores_includeUnassigned (env : JiraEnv)
    (st : Caches) (a1 a2 : StandupArgs)
    (hb : a1.boardId = a2.boardId) (hp : a1.projectKey = a2.projectKey)
    (hd : a1.daysStale = a2.daysStale) :
    standupAfterValidate env st a1 = standupAfterValidate env st a2 := by
  obtain ⟨b1, p1, d1, u1⟩ := a1
  obtain ⟨b2, p2, d2, u2⟩ := a2
  simp only at hb hp hd
  subst hb hp hd
  rfl

/-- C10: the includeUnassigned parameter of jira_daily_standup_report has
no effect: two requests that pass validation and differ only in
includeUnassigned produce identical outcomes (same report, same caches,
same errors) from the same state. -/
theorem standup_includeUnassigned_no_effect (env : JiraEnv) (st : Caches)
    (raw1 raw2 : StandupArgsRaw) (a1 a2 : StandupArgs)
    (hv1 : validateStandup raw1 = .ok a1) (hv2 : validateStandup raw2 = .ok a2)
    (hb : raw1.boardId = raw2.boardId) (hp : raw1.projectKey = raw2.projectKey)
    (hd : raw1.daysStale = raw2.daysStale) :
    standupCase env st raw1 = standupCase env st raw2 := by
  unfold standupCase
  rw [hv1, hv2]
  obtain ⟨f1b, f1p, f1d, -⟩ := validateStandup_fields raw1 a1 hv1
  obtain ⟨f2b, f2p, f2d, -⟩ := validateStandup_fields raw2 a2 hv2
  exact standupAfterValidate_ignores_includeUnassigned env st a1 a2
    (by rw [f1b, f2b, hb]) (by rw [f1p, f2p, hp]) (by rw [f1d, f2d, hd])

/-- Map.set makes the key retrievable. -/
theorem assocFind_assocSet {α : Type} (l : List (String × α)) (k : String)
    (v : α) : assocFind (assocSet l k v) k = some v := by
  induction l with
  | nil => simp [assocSet, assocFind]
  | cons hd tl ih =>
    obtain ⟨k0, v0⟩ := hd
    by_cases hk : k0 = k
    · simp [assocSet, assocFind, hk]
    · simp [assocSet, assocFind, hk, ih]

/-- Reading an absent key is a miss that only bumps the miss counter. -/
theorem cacheGet_absent {α : Type} (c : CacheStore α) (now : Int) (k : String)
    (h : assocFind c.entries (fullKey c k) = none) :
    cacheGet c now k = (none, { c with missCount := c.missCount + 1 }) := by
  simp only [cacheGet, h]

/-- Reading a key right after setting it, within its TTL window, returns
the stored data. -/
theorem cacheGet_after_set {α : Type} (c : CacheStore α) (now t : Int)
    (k : String) (v : α) (ttl : Nat) (httl : ttl ≠ 0)
    (ht : t ≤ now + ttl * 1000) :
    (cacheGet (cacheSet c now k v (some ttl)) t k).1 = some v := by
  unfold cacheGet cacheSet
  simp only [httl, ite_false, fullKey]
  rw [assocFind_assocSet]
  have hlt : ¬ (t > now + (ttl : Int) * 1000) := by omega
  simp [hlt]

/-- C8: on a sprint-cache miss, `getActiveSprint` returns the head of the
fetched sprint list (or null when it is empty); an empty result writes
nothing (an absent key stays absent, so the board is re-checked on the next
call), while a non-null sprint is stored under the board key and is
retrievable for the whole 600-second TTL window. -/
theorem getActiveSprint_spec (cache : CacheStore Sprint) (now t : Int)
    (bid : Nat) (values : List Sprint) (c1 : CacheStore Sprint)
    (hmiss : cacheGet cache now (sprintKey bid) = (none, c1)) :
    getActiveSprint cache now bid (.ok values)
      = .ok (values.head?,
          match values.head? with
          | none => c1
          | some s => cacheSet c1 now (sprintKey bid) s (some 600))
    ∧ (values = [] →
        getActiveSprint cache now bid (.ok values) = .ok (none, c1)
        ∧ (assocFind cache.entries (fullKey cache (sprintKey bid)) = none →
            cacheGet c1 t (sprintKey bid)
              = (none, { c1 with missCount := c1.missCount + 1 })))
    ∧ (∀ s rest, values = s :: rest → t ≤ now + 600 * 1000 →
        (cacheGet (cacheSet c1 now (sprintKey bid) s (some 600)) t
          (sprintKey bid)).1 = some s) := by
  refine ⟨?_, ?_, ?_⟩
  · unfold getActiveSprint
    simp only [hmiss]
    cases values <;> rfl
  · rintro rfl
    refine ⟨?_, ?_⟩
    · unfold getActiveSprint
      simp only [hmiss]
      rfl
    · intro habs
      have h2 := cacheGet_absent cache now (sprintKey bid) habs
      rw [hmiss] at h2
      have h1 : c1 = { cache with missCount := cache.missCount + 1 } :=
        congrArg Prod.snd h2
      subst h1
      exact cacheGet_absent _ t (sprintKey bid) habs
  · rintro s rest rfl ht
    exact cacheGet_after_set c1 now t (sprintKey bid) s 600 (by decide) ht

/-- A failing page fetch makes the whole pagination fail. -/
theorem paginateAux_error (fetch : Nat → Except AppError IssuePage)
    (ps fuel startAt count : Nat) (acc : List JiraIssue) (e : AppError)
    (hf : fetch startAt = .error e) :
    paginateAux fetch ps fuel startAt acc count = .error e := by
  unfold paginateAux
  rw [hf]

/-- A page fetch whose advanced offset still lies below the reported total
continues the loop with one more fetch counted. -/
theorem paginateAux_step (fetch : Nat → Except AppError IssuePage)
    (ps fuel startAt count : Nat) (acc : List JiraIssue) (page : IssuePage)
    (hf : fetch startAt = .ok page)
    (hlt : startAt + ps < page.total.getD 0) :
    paginateAux fetch ps (fuel + 1) startAt acc count
      = paginateAux fetch ps fuel (startAt + ps)
          (acc ++ page.issues.getD []) (count + 1) := by
  conv_lhs => rw [paginateAux]
  rw [hf]
  simp only [if_pos hlt]

/-- A page fetch whose advanced offset reaches the reported total ends the
loop with the accumulated issues. -/
theorem paginateAux_last (fetch : Nat → Except AppError IssuePage)
    (ps fuel startAt count : Nat) (acc : List JiraIssue) (page : IssuePage)
    (hf : fetch startAt = .ok page)
    (hge : ¬ (startAt + ps < page.total.getD 0)) :
    paginateAux fetch ps fuel startAt acc count
      = .ok (acc ++ page.issues.getD [], count + 1) := by
  conv_lhs => rw [paginateAux]
  rw [hf]
  simp only [if_neg hge]

/-- C5: the pagination of `getSprintTickets` fetches fixed 50-issue pages
sequentially, advancing the offset by the page size until it reaches the
reported total — a sprint of 120 issues takes exactly 3 fetches and
accumulates all 120 issues — and a failing page makes the whole fetch fail
with nothing written to the issue cache (an absent key stays absent). -/
theorem getSprintTickets_pagination :
    (∀ (L : List JiraIssue) (f : Nat), L.length = 120 →
      paginateAux (listServer L) 50 (f + 2) 0 [] 0 = .ok (L, 3))
    ∧ (∀ (cache : CacheStore (List JiraIssue)) (now t : Int) (sid : Nat)
        (fetch : Nat → Except AppError IssuePage) (fuel : Nat) (e : AppError)
        (c1 : CacheStore (List JiraIssue)),
        cacheGet cache now (sprintIssuesKey sid) = (none, c1) →
        paginateAux fetch 50 fuel 0 [] 0 = .error e →
        getSprintTickets cache now sid fetch fuel = (.error e, c1)
        ∧ (assocFind cache.entries (fullKey cache (sprintIssuesKey sid)) = none →
            cacheGet c1 t (sprintIssuesKey sid)
              = (none, { c1 with missCount := c1.missCount + 1 }))) := by
  constructor
  · intro L f hL
    have p0 : listServer L 0 = .ok ⟨some (L.take 50), some L.length⟩ := by
      simp [listServer]
    have p1 : listServer L 50 = .ok ⟨some ((L.drop 50).take 50), some L.length⟩ := rfl
    have p2 : listServer L 100 = .ok ⟨some ((L.drop 100).take 50), some L.length⟩ := rfl
    rw [paginateAux_step (listServer L) 50 (f + 1) 0 0 [] _ p0 (by simp [hL])]
    rw [paginateAux_step (listServer L) 50 f 50 1 _ _ p1 (by simp [hL])]
    rw [paginateAux_last (listServer L) 50 f 100 2 _ _ p2 (by simp [hL])]
    simp only [Option.getD_some, List.nil_append, List.append_assoc]
    have e1 : List.drop 100 L = List.drop 50 (List.drop 50 L) := by
      rw [List.drop_drop]
    rw [e1, ← List.take_add, ← List.take_add]
    rw [List.take_of_length_le (by omega)]
  · intro cache now t sid fetch fuel e c1 hmiss herr
    constructor
    · unfold getSprintTickets
      simp only [hmiss, herr]
    · intro habs
      have h2 := cacheGet_absent cache now (sprintIssuesKey sid) habs
      rw [hmiss] at h2
      have h1 : c1 = { cache with missCount := cache.missCount + 1 } :=
        congrArg Prod.snd h2
      subst h1
      exact cacheGet_absent _ t (sprintIssuesKey sid) habs

/-- A successful attempt ends the retry loop with its value. -/
theorem retryAux_ok {ε α : Type} (op : Nat → Except ε α) (sr : ε → Nat → Bool)
    (maxA factor maxD attempt delay : Nat) (v : α)
    (h : op attempt = .ok v) :
    retryAux op sr maxA factor maxD attempt delay = (.ok v, []) := by
  unfold retryAux
  rw [h]

/-- A failure at the attempt budget, or one the predicate refuses to retry,
propagates immediately with no further sleeping. -/
theorem retryAux_stop {ε α : Type} (op : Nat → Except ε α)
    (sr : ε → Nat → Bool) (maxA factor maxD attempt delay : Nat) (e : ε)
    (h : op attempt = .error e)
    (hstop : attempt = maxA ∨ sr e attempt = false) :
    retryAux op sr maxA factor maxD attempt delay = (.error e, []) := by
  unfold retryAux
  rw [h]
  dsimp only
  rcases hstop with hstop | hstop
  · rw [if_pos (show attempt ≥ maxA by omega)]
  · by_cases hge : attempt ≥ maxA
    · rw [if_pos hge]
    · rw [if_neg hge, if_pos hstop]

/-- A retryable failure below the attempt budget sleeps the current delay
and continues with the delay advanced to `min (delay * factor) maxDelay`. -/
theorem retryAux_cont {ε α : Type} (op : Nat → Except ε α)
    (sr : ε → Nat → Bool) (maxA factor maxD attempt delay : Nat) (e : ε)
    (h : op attempt = .error e) (hlt : attempt < maxA)
    (hsr : sr e attempt = true) :
    retryAux op sr maxA factor maxD attempt delay
      = ((retryAux op sr maxA factor maxD (attempt + 1)
            (min (delay * factor) maxD)).1,
         delay :: (retryAux op sr maxA factor maxD (attempt + 1)
            (min (delay * factor) maxD)).2) := by
  conv_lhs => rw [retryAux]
  rw [h]
  dsimp only
  rw [if_neg (show ¬ attempt ≥ maxA by omega), if_neg (by simp [hsr])]

/-- C6: with the default options (maxAttempts 3, initialDelay 1000,
maxDelay 10000, factor 2), retryable failures on attempts 1 and 2 followed
by success on attempt 3 return the success after backoffs 1000 and 2000 ms;
three failures propagate the final error; in general an error propagates
immediately exactly when the attempt equals the budget or the predicate
declines, and otherwise the loop sleeps the current delay and continues
with `min (delay * factor) maxDelay`. -/
theorem retry_spec {α : Type} :
    (∀ (op : Nat → Except AppError α) (v : α) (e1 e2 : AppError),
      op 1 = .error e1 → op 2 = .error e2 → op 3 = .ok v →
      defaultShouldRetry e1 1 = true → defaultShouldRetry e2 2 = true →
      retryDefault op = (.ok v, [1000, 2000]))
    ∧ (∀ (op : Nat → Except AppError α) (e1 e2 e3 : AppError),
      op 1 = .error e1 → op 2 = .error e2 → op 3 = .error e3 →
      defaultShouldRetry e1 1 = true → defaultShouldRetry e2 2 = true →
      retryDefault op = (.error e3, [1000, 2000]))
    ∧ (∀ (ε : Type) (op : Nat → Except ε α) (sr : ε → Nat → Bool)
        (maxA factor maxD attempt delay : Nat) (e : ε),
      op attempt = .error e → (attempt = maxA ∨ sr e attempt = false) →
      retryAux op sr maxA factor maxD attempt delay = (.error e, []))
    ∧ (∀ (ε : Type) (op : Nat → Except ε α) (sr : ε → Nat → Bool)
        (maxA factor maxD attempt delay : Nat) (e : ε),
      op attempt = .error e → attempt < maxA → sr e attempt = true →
      retryAux op sr maxA factor maxD attempt delay
        = ((retryAux op sr maxA factor maxD (attempt + 1)
              (min (delay * factor) maxD)).1,
           delay :: (retryAux op sr maxA factor maxD (attempt + 1)
              (min (delay * factor) maxD)).2)) := by
  refine ⟨?_, ?_, ?_, ?_⟩
  · intro op v e1 e2 h1 h2 h3 hr1 hr2
    unfold retryDefault
    rw [retryAux_cont op defaultShouldRetry 3 2 10000 1 1000 e1 h1 (by omega) hr1]
    rw [retryAux_cont op defaultShouldRetry 3 2 10000 2 (min (1000 * 2) 10000) e2 h2
      (by omega) hr2]
    rw [retryAux_ok op defaultShouldRetry 3 2 10000 3 _ v h3]
    norm_num
  · intro op e1 e2 e3 h1 h2 h3 hr1 hr2
    unfold retryDefault
    rw [retryAux_cont op defaultShouldRetry 3 2 10000 1 1000 e1 h1 (by omega) hr1]
    rw [retryAux_cont op defaultShouldRetry 3 2 10000 2 (min (1000 * 2) 10000) e2 h2
      (by omega) hr2]
    rw [retryAux_stop op defaultShouldRetry 3 2 10000 3 _ e3 h3 (Or.inl rfl)]
    norm_num
  · intro ε op sr maxA factor maxD attempt delay e h hstop
    exact retryAux_stop op sr maxA factor maxD attempt delay e h hstop
  · intro ε op sr maxA factor maxD attempt delay e h hlt hsr
    exact retryAux_cont op sr maxA factor maxD attempt delay e h hlt hsr

/-- C7: the default shouldRetry accepts exactly the classified upstream
errors whose (defaulted) status is at least 500 or equal to 429 or whose
code is the timeout classification; the axios classifier assigns the
timeout code exactly to statuses 408 and 504; consequently no other 4xx
response is retried. -/
theorem defaultShouldRetry_spec :
    (∀ (e : AppError) (attempt : Nat),
      defaultShouldRetry e attempt = true
        ↔ ∃ d, e = .api d
            ∧ (500 ≤ d.statusCode.getD 0 ∨ d.statusCode.getD 0 = 429
                ∨ d.code = .apiTimeout))
    ∧ (∀ ax : AxiosErrorData,
        (fromAxiosError ax).code = .apiTimeout
          ↔ (ax.statusCode = some 408 ∨ ax.statusCode = some 504))
    ∧ (∀ (ax : AxiosErrorData) (s attempt : Nat), ax.statusCode = some s →
        400 ≤ s → s < 500 → s ≠ 429 → s ≠ 408 →
        defaultShouldRetry (.api (fromAxiosError ax)) attempt = false) := by
  refine ⟨?_, ?_, ?_⟩
  · intro e attempt
    cases e <;> simp [defaultShouldRetry, or_assoc]
  · intro ax
    unfold fromAxiosError
    split_ifs with h1 h2 h3 h4 <;> simp_all
  · intro ax s attempt hs h4xx h5xx h429 h408
    unfold defaultShouldRetry fromAxiosError
    split_ifs with h1 h2 h3 h4 <;> simp_all

/-- C9: the single top-level handler of `handleJiraTool` returns successful
switch outcomes unchanged, and converts every thrown value into the
structured response of the centralized error handler, which always carries
the originating tool name and the human-readable message of the error, and
the status code where the error provides one (500 otherwise). -/
theorem handleJiraTool_error_contract :
    (∀ (name : String) (r : ToolResponse),
      handleJiraToolWith (.ok r) name = r)
    ∧ (∀ (name : String) (e : AppError),
      handleJiraToolWith (.error e) name
          = errorToolResponse (errorHandlerHandle e name)
      ∧ (errorHandlerHandle e name).tool = name
      ∧ (errorHandlerHandle e name).error = errMessage e
      ∧ (errorHandlerHandle e name).status = errStatus e) := by
  refine ⟨fun name r => rfl, fun name e => ⟨rfl, ?_, ?_, ?_⟩⟩ <;> cases e <;> rfl

/-! ## Witnesses: the hypotheses of the theorems above hold at concrete
inputs -/

/-- Witness for the completed-issue exclusion at a concrete Done issue. -/
theorem standup_completed_excluded_witness :
    passesFilter none issueDoneW = true
    ∧ categorizeStatus (processIssue envW issueDoneW 2).status = .completed
    ∧ (processIssue envW issueDoneW 2).categories = [] :=
  ⟨by decide, by decide,
   (standup_completed_excluded envW sprintW none 2 [] issueDoneW (by decide)
     (by decide)).1⟩

/-- Witness for the cache-hit theorem: requests with daysStale 2 and 9 both
receive the stored report. -/
theorem standup_cache_hit_ignores_daysStale_witness :
    validateStandup raw1W = .ok a1W
    ∧ validateStandup raw2W = .ok a2W
    ∧ cacheGet cachesW.reportC envJW.time.now
        (standupReportKey a1W.boardId a1W.projectKey)
        = (some reportW, reportStoreHitW)
    ∧ standupCase envJW cachesW raw1W
        = .ok (reportW, { cachesW with reportC := reportStoreHitW })
    ∧ standupCase envJW cachesW raw2W
        = .ok (reportW, { cachesW with reportC := reportStoreHitW }) :=
  ⟨rfl, rfl, by decide,
   (standup_cache_hit_ignores_daysStale envJW cachesW raw1W raw2W a1W a2W
     reportW reportStoreHitW rfl rfl rfl rfl (by decide)).1,
   (standup_cache_hit_ignores_daysStale envJW cachesW raw1W raw2W a1W a2W
     reportW reportStoreHitW rfl rfl rfl rfl (by decide)).2⟩

/-- Witness for the sorting theorem at a concrete two-issue sprint. -/
theorem standup_sorted_witness :
    List.Sorted staleOrd
      (buildStandupReport envW sprintW none 2 [issueDoneW, issueLateW]).staleIssues
    ∧ List.Sorted dueOrd
      (buildStandupReport envW sprintW none 2 [issueDoneW, issueLateW]).overdueIssues :=
  ⟨(standup_sorted envW sprintW none 2 [issueDoneW, issueLateW]).1,
   (standup_sorted envW sprintW none 2 [issueDoneW, issueLateW]).2.1⟩

/-- Witness for the pagination theorem: a concrete 120-issue sprint takes 3
fetches, and a failing fetch propagates with the cache left without the
key. -/
theorem getSprintTickets_pagination_witness :
    issuesPageListW.length = 120
    ∧ paginateAux (listServer issuesPageListW) 50 2 0 [] 0
        = .ok (issuesPageListW, 3)
    ∧ cacheGet issuesStoreW 0 (sprintIssuesKey 9)
        = (none, { issuesStoreW with missCount := 1 })
    ∧ paginateAux failFetchW 50 5 0 [] 0 = .error err503W
    ∧ getSprintTickets issuesStoreW 0 9 failFetchW 5
        = (.error err503W, { issuesStoreW with missCount := 1 }) :=
  ⟨by decide,
   getSprintTickets_pagination.1 issuesPageListW 0 (by decide),
   by decide, rfl,
   (getSprintTickets_pagination.2 issuesStoreW 0 0 9 failFetchW 5 err503W
     { issuesStoreW with missCount := 1 } (by decide) rfl).1⟩

/-- Witness for the retry theorem at concrete operations: two 503 failures
then success return the value after 1000 and 2000 ms backoffs; three
failures propagate the final error. -/
theorem retry_spec_witness :
    opSucceed3W 1 = .error err503W
    ∧ defaultShouldRetry err503W 1 = true
    ∧ retryDefault opSucceed3W = (.ok 42, [1000, 2000])
    ∧ retryDefault opFailW = (.error err503W, [1000, 2000]) :=
  ⟨rfl, by decide,
   (@retry_spec Nat).1 opSucceed3W 42 err503W err503W rfl rfl rfl (by decide)
     (by decide),
   (@retry_spec Nat).2.1 opFailW err503W err503W err503W rfl rfl rfl
     (by decide) (by decide)⟩

/-- Witness for the shouldRetry theorem at concrete errors: 503 is retried,
408 classifies as timeout, 404 is not retried. -/
theorem defaultShouldRetry_spec_witness :
    defaultShouldRetry err503W 1 = true
    ∧ (fromAxiosError ax408W).code = .apiTimeout
    ∧ defaultShouldRetry (.api (fromAxiosError ax404W)) 1 = false :=
  ⟨(defaultShouldRetry_spec.1 err503W 1).mpr
     ⟨⟨"Service Unavailable", .apiGeneric, some 503, none, none⟩, rfl,
      by decide⟩,
   (defaultShouldRetry_spec.2.1 ax408W).mpr (Or.inl rfl),
   defaultShouldRetry_spec.2.2 ax404W 404 1 rfl (by decide) (by decide)
     (by decide) (by decide)⟩

/-- Witness for the active-sprint theorem at an empty cache: an empty fetch
caches nothing and a fetched sprint is retrievable after being cached. -/
theorem getActiveSprint_spec_witness :
    cacheGet sprintStoreW 0 (sprintKey 7)
      = (none, { sprintStoreW with missCount := 1 })
    ∧ getActiveSprint sprintStoreW 0 7 (.ok [])
      = .ok (none, { sprintStoreW with missCount := 1 })
    ∧ (cacheGet (cacheSet { sprintStoreW with missCount := 1 } 0 (sprintKey 7)
        sprintW (some 600)) 0 (sprintKey 7)).1 = some sprintW :=
  ⟨by decide,
   ((getActiveSprint_spec sprintStoreW 0 0 7 []
     { sprintStoreW with missCount := 1 } (by decide)).2.1 rfl).1,
   (getActiveSprint_spec sprintStoreW 0 0 7 [sprintW]
     { sprintStoreW with missCount := 1 } (by decide)).2.2 sprintW [] rfl
     (by decide)⟩

/-- Witness for the includeUnassigned theorem: requests differing only in
that flag produce the same outcome. -/
theorem standup_includeUnassigned_no_effect_witness :
    validateStandup raw1W = .ok a1W
    ∧ validateStandup raw3W = .ok a3W
    ∧ standupCase envJW cachesW raw1W = standupCase envJW cachesW raw3W :=
  ⟨rfl, rfl,
   standup_includeUnassigned_no_effect envJW cachesW raw1W raw3W a1W a3W
     rfl rfl rfl rfl rfl⟩

end EngMcp
